import Mathlib

/-!
Verification of the databasetool PostgreSQL backup/restore/sync orchestrator.

The Rust sources are shallowly embedded: pure string manipulation is
translated to executable Lean functions over `String`/`List Char`,
effectful pipeline steps become functions from their inputs (configuration,
captured process output, answers of the database server) to an explicit
result together with a trace of the server actions or child-process spawns
they perform.  External I/O (the PostgreSQL wire protocol, the filesystem,
child processes) is represented by parameters that stand for the answers
the outside world gives.
-/

namespace DatabaseTool

/-! ## String primitives modelling the Rust standard library

Core Lean `String` functions such as `String.replace` are defined by
well-founded recursion and do not reduce inside the kernel, so the Rust
string operations are modelled by structurally recursive functions over
`List Char`. -/

/-- Models Rust `str::starts_with` on character lists. -/
def strStartsWith : List Char → List Char → Bool
  | _, [] => true
  | [], _ :: _ => false
  | c :: s, d :: p => c == d && strStartsWith s p

/-- Models Rust `str::contains` (substring containment; all needles used in
this development are non-empty). -/
def containsSub (hay needle : List Char) : Bool :=
  strStartsWith hay needle ||
    match hay with
    | [] => false
    | _ :: t => containsSub t needle

/-- String wrapper for `containsSub`. -/
def containsSubstr (hay needle : String) : Bool :=
  containsSub hay.data needle.data

/-- Leftmost, non-overlapping replacement of every occurrence of `pat`,
as performed by Rust `str::replace`.  The first `Nat` argument counts
pattern characters still to be skipped after a match was emitted.
For the empty pattern this model is the identity; the program only ever
replaces non-empty patterns. -/
def replaceAux (pat rep : List Char) : Nat → List Char → List Char
  | _ + 1, [] => []
  | n + 1, _ :: t => replaceAux pat rep n t
  | 0, [] => []
  | 0, c :: t =>
    if strStartsWith (c :: t) pat && !pat.isEmpty then
      rep ++ replaceAux pat rep (pat.length - 1) t
    else
      c :: replaceAux pat rep 0 t

/-- Models Rust `str::replace`. -/
def strReplace (s pat rep : String) : String :=
  ⟨replaceAux pat.data rep.data 0 s.data⟩

/-- ASCII lower-casing of a single character, as in Rust
`u8::to_ascii_lowercase`. -/
def asciiLower (c : Char) : Char :=
  if 'A' ≤ c && c ≤ 'Z' then Char.ofNat (c.toNat + 32) else c

/-- Models Rust `str::eq_ignore_ascii_case`. -/
def eqIgnoreAsciiCase (a b : String) : Bool :=
  a.data.map asciiLower == b.data.map asciiLower

/-- Models Rust `char::is_alphanumeric` (Unicode alphabetic or numeric).
The model is exact on ASCII (`Char.isAlphanum`) and on the Latin-1
supplement (ª ² ³ µ ¹ º ¼ ½ ¾ and the letter ranges U+00C0–U+00D6,
U+00D8–U+00F6, U+00F8–U+00FF); no identifier considered in this
development contains a character above U+00FF. -/
def rustIsAlphanumeric (c : Char) : Bool :=
  c.isAlphanum
  || c.toNat == 0xAA || c.toNat == 0xB2 || c.toNat == 0xB3 || c.toNat == 0xB5
  || c.toNat == 0xB9 || c.toNat == 0xBA
  || (0xBC ≤ c.toNat && c.toNat ≤ 0xBE)
  || (0xC0 ≤ c.toNat && c.toNat ≤ 0xD6)
  || (0xD8 ≤ c.toNat && c.toNat ≤ 0xF6)
  || (0xF8 ≤ c.toNat && c.toNat ≤ 0xFF)

/-- Models Rust `char::is_whitespace` (Unicode White_Space); exact on
ASCII and Latin-1, which covers every identifier considered here. -/
def isRustWhitespace (c : Char) : Bool :=
  c == ' ' || c == '\t' || c == '\n' || c == '\r'
  || c.toNat == 0x0B || c.toNat == 0x0C || c.toNat == 0x85 || c.toNat == 0xA0

/-! ## Admin database manager
Embedding of `manage_target_database` and `create_database_if_not_exists`
from `src/restore/db_restore.rs`. -/

/-- Parsed view of a connection URI, standing for the `url::Url` value
produced by the external `url` crate: only the username and the path
component are consulted by `manage_target_database` and
`create_database_if_not_exists`. -/
structure Url where
  username : String
  path : String
deriving DecidableEq, Repr

/-- Embedding of the Rust `RestoreConfig` fields consulted by
`manage_target_database` (`src/config/mod.rs`); `target_db_url` is kept
in parsed form. -/
structure RestoreConfig where
  target_db_url : Url
  drop_target_database_if_exists : Bool
  create_target_database_if_not_exists : Bool
deriving DecidableEq, Repr

/-- One observable action issued against the target server through the
admin (maintenance) connection. -/
inductive AdminAction where
  | connectMaintenance
  | queryDatabaseExists (name : String)
  | terminateSessions (name : String)
  | dropDatabase (sql : String)
  | createDatabase (sql : String)
deriving DecidableEq, Repr

/-- Doubling of embedded double quotes, `name.replace('"', "\x22\x22")`
in the Rust source. -/
def escape_ident (s : String) : String := strReplace s "\"" "\"\""

/-- SQL text of the forced drop issued by `manage_target_database`
(`src/restore/db_restore.rs:349`). -/
def drop_database_sql (name : String) : String :=
  "DROP DATABASE \"" ++ escape_ident name ++ "\" WITH (FORCE)"

/-- SQL text built by `create_database_if_not_exists`
(`src/restore/db_restore.rs:385-388`): the owner clause is appended only
when the username parsed from the target URI is non-empty. -/
def create_database_sql (name owner : String) : String :=
  let base := "CREATE DATABASE \"" ++ escape_ident name ++ "\" "
  if owner.isEmpty then base
  else base ++ " OWNER \"" ++ escape_ident owner ++ "\" "

/-- Message of the protected-database error
(`src/restore/db_restore.rs:335`). -/
def protected_db_message (name : String) : String :=
  "Configuration indicates dropping database '" ++ name ++
    "', but it is a critical system database. This is not allowed."

/-- Message of the missing-database error
(`src/restore/db_restore.rs:367-370`). -/
def db_missing_message (name : String) : String :=
  "Database '" ++ name ++
    "' does not exist and 'CREATE_TARGET_DATABASE_IF_NOT_EXISTS' is false. Cannot proceed with restore for this database."

/-- Models Rust `str::trim_start_matches('/')`. -/
def trimLeadingSlashes : List Char → List Char
  | '/' :: t => trimLeadingSlashes t
  | s => s

/-- Embedding of `manage_target_database` (`src/restore/db_restore.rs:307-373`).
The boolean `db_exists` is the server's answer to the catalog existence
query; the admin connection and every admin SQL statement are assumed to
be accepted by the server (their I/O failures are external).  The result
is the Rust `Result<bool>` value together with the ordered trace of
server actions. -/
def manage_target_database (restore_config : RestoreConfig)
    (db_name_to_manage : String) (db_exists : Bool) :
    Except String Bool × List AdminAction :=
  let original_db_path : String := ⟨trimLeadingSlashes restore_config.target_db_url.path.data⟩
  let owner := restore_config.target_db_url.username
  let pre := [AdminAction.connectMaintenance,
              AdminAction.queryDatabaseExists db_name_to_manage]
  if db_exists then
    if restore_config.drop_target_database_if_exists then
      if eqIgnoreAsciiCase db_name_to_manage "postgres"
          || (eqIgnoreAsciiCase original_db_path "postgres"
              && eqIgnoreAsciiCase db_name_to_manage original_db_path) then
        (Except.error (protected_db_message db_name_to_manage), pre)
      else
        (Except.ok true,
         pre ++ [AdminAction.terminateSessions db_name_to_manage,
                 AdminAction.dropDatabase (drop_database_sql db_name_to_manage),
                 AdminAction.createDatabase (create_database_sql db_name_to_manage owner)])
    else
      (Except.ok false, pre)
  else
    if restore_config.create_target_database_if_not_exists then
      (Except.ok true,
       pre ++ [AdminAction.createDatabase (create_database_sql db_name_to_manage owner)])
    else
      (Except.error (db_missing_message db_name_to_manage), pre)

/-! ## Name remapper and the SQL stream handed to psql
Embedding of `replace_database_references` and of the content
preparation inside `execute_sql_file_with_psql`
(`src/restore/db_restore.rs:79-135, 444-492`). -/

/-- Embedding of `replace_database_references`
(`src/restore/db_restore.rs:446-492`).  The connection-URL guard scan of
the Rust function only logs warnings and never changes the result, so it
is not part of the model. -/
def replace_database_references (sql_content source_db target_db : String) : String :=
  if source_db == target_db then sql_content
  else
    let patterns : List String :=
      [" " ++ source_db ++ " ",
       "\"" ++ source_db ++ "\" ",
       " " ++ source_db ++ ".",
       "\"" ++ source_db ++ "\".",
       " " ++ source_db ++ ";",
       "\"" ++ source_db ++ "\";",
       "\\c " ++ source_db,
       "\\c \"" ++ source_db ++ "\""]
    patterns.foldl
      (fun res p => strReplace res p (strReplace p source_db target_db))
      sql_content

/-- Prologue prepended to a data file when a rename is requested
(`src/restore/db_restore.rs:90-109`); the Rust string-literal line
continuations strip the newline and the following indentation.  Note the
truncation loop skips the table `schema_migrations`. -/
def data_truncate_prologue : String :=
  "SET session_replication_role = 'replica';\n-- Truncate tables to avoid duplicate key errors\nDO $$\nDECLARE\ntable_name text;\nBEGIN\nFOR table_name IN \nSELECT tablename FROM pg_tables \nWHERE schemaname = 'public' \nAND tablename != 'schema_migrations'\nLOOP\nEXECUTE 'TRUNCATE TABLE ' || quote_ident(table_name) || ' CASCADE';\nEND LOOP;\nEND$$;\n"

/-- Epilogue appended after the data body in the same wrapping. -/
def data_origin_epilogue : String := "\nSET session_replication_role = 'origin';"

/-- Content of the SQL stream actually handed to `psql` by
`execute_sql_file_with_psql` (`src/restore/db_restore.rs:79-135`):
rewriting and the replica/truncate wrapping happen only when both a
source and a target name are supplied and they differ; otherwise the
original file content is executed unchanged. -/
def executed_sql_content (file_content log_context : String)
    (source_db_name target_db_name : Option String) : String :=
  match source_db_name, target_db_name with
  | some source, some target =>
    if source ≠ target then
      let modified := replace_database_references file_content source target
      if log_context == "data" then
        data_truncate_prologue ++ modified ++ data_origin_epilogue
      else modified
    else file_content
  | _, _ => file_content

/-! ## Child-process outcome triage
Embedding of the exit-status handling of `execute_sql_file_with_psql`
(`src/restore/db_restore.rs:157-299`) and `restore_database_from_dump`
(`src/restore/db_restore.rs:509-707`). -/

/-- Captured observable outcome of a finished child process. -/
structure ProcOutput where
  statusSuccess : Bool
  statusCode : Option Int
  stdout : String
  stderr : String
deriving DecidableEq, Repr

/-- Classification of a restore step result; everything except `ok` is
surfaced as an error by the Rust code. -/
inductive StepResult where
  | ok
  | timedOut
  | connectionTimeout
  | killedBySignal
  | failed
deriving DecidableEq, Repr

/-- Timeout applied by `execute_sql_file_with_psql`
(`src/restore/db_restore.rs:157`): a fixed 14400 seconds (4 hours)
regardless of whether the call applies a schema file or a data file;
the function takes no timeout parameter. -/
def psql_timeout_secs (_log_context : String) : Nat := 14400

/-- Exit triage of the `psql` path (`src/restore/db_restore.rs:172-299`):
`timed_out` records whether the tokio timeout fired before the child
finished.  A non-success exit status always produces an error. -/
def psql_step (timed_out : Bool) (output : ProcOutput) : StepResult :=
  if timed_out then StepResult.timedOut
  else if output.statusSuccess then StepResult.ok
  else if containsSubstr output.stderr "connection" && containsSubstr output.stderr "timeout" then
    StepResult.connectionTimeout
  else if output.statusCode == some 137 || output.statusCode == some 143
      || output.statusCode == some 9 then
    StepResult.killedBySignal
  else StepResult.failed

/-- Exit triage of the `pg_restore` path
(`src/restore/db_restore.rs:571-707`): a non-success status is tolerated
when both captured streams are empty, or when stderr carries the
`transaction_timeout` warning or exactly `errors ignored on restore: 1`,
or when stdout carries the `transaction_timeout` warning or
`errors ignored on restore`. -/
def pg_restore_step (timed_out : Bool) (output : ProcOutput) : StepResult :=
  if timed_out then StepResult.timedOut
  else if output.statusSuccess then StepResult.ok
  else if output.stdout == "" && output.stderr == "" then StepResult.ok
  else if containsSubstr output.stderr "unrecognized configuration parameter \"transaction_timeout\""
      || containsSubstr output.stderr "errors ignored on restore: 1"
      || containsSubstr output.stdout "unrecognized configuration parameter \"transaction_timeout\""
      || containsSubstr output.stdout "errors ignored on restore" then
    StepResult.ok
  else if containsSubstr output.stderr "connection" && containsSubstr output.stderr "timeout" then
    StepResult.connectionTimeout
  else if output.statusCode == some 137 || output.statusCode == some 143
      || output.statusCode == some 9 then
    StepResult.killedBySignal
  else StepResult.failed

/-! ## Backup dump pipeline
Embedding of `dump_databases` (`src/backup/db_dump.rs:18-143`). -/

/-- One observable external effect of the backup dump loop. -/
inductive DumpEvent where
  | connectAdmin
  | spawnSchemaDump (db : String)
  | spawnDataDump (db : String)
deriving DecidableEq, Repr

/-- Validity check applied to database identifiers
(`src/backup/db_dump.rs:47,72`): rejected when the trimmed name is empty
or some character is neither `char::is_alphanumeric` nor `_` nor `-`.
`name.trim().is_empty()` is equivalent to every character being
whitespace. -/
def invalid_db_name (name : String) : Bool :=
  name.data.all isRustWhitespace
  || name.data.any (fun c => !rustIsAlphanumeric c && c != '_' && c != '-')

/-- Skip condition of the dump loop (`src/backup/db_dump.rs:77-86`):
identifiers starting with `template` are always skipped, and `postgres`
is skipped unless the explicitly configured list contains it. -/
def skip_system_db (db_name : String) (databases_to_backup : Option (List String)) : Bool :=
  strStartsWith db_name.data "template".data
  || (db_name == "postgres"
      && (match databases_to_backup with
          | none => true
          | some dbs => !(dbs.contains db_name)))

/-- Per-database loop of `dump_databases` (`src/backup/db_dump.rs:71-140`).
The predicates `schema_dump_ok` and `data_dump_ok` are the exit statuses
of the spawned `pg_dump` child processes; a failed dump aborts the run. -/
def dump_loop (schema_dump_ok data_dump_ok : String → Bool)
    (databases_to_backup : Option (List String)) :
    List String → Except String (List String) × List DumpEvent
  | [] => (Except.ok [], [])
  | db :: rest =>
    if invalid_db_name db then
      dump_loop schema_dump_ok data_dump_ok databases_to_backup rest
    else if skip_system_db db databases_to_backup then
      dump_loop schema_dump_ok data_dump_ok databases_to_backup rest
    else if schema_dump_ok db then
      if data_dump_ok db then
        let next := dump_loop schema_dump_ok data_dump_ok databases_to_backup rest
        ((match next.1 with
          | Except.ok dbs => Except.ok (db :: dbs)
          | Except.error e => Except.error e),
         DumpEvent.spawnSchemaDump db :: DumpEvent.spawnDataDump db :: next.2)
      else
        (Except.error ("pg_dump (data) for database " ++ db ++ " failed"),
         [DumpEvent.spawnSchemaDump db, DumpEvent.spawnDataDump db])
    else
      (Except.error ("pg_dump (schema) for database " ++ db ++ " failed"),
       [DumpEvent.spawnSchemaDump db])

/-- Embedding of `dump_databases` (`src/backup/db_dump.rs:18-143`).
`server_catalog` is the list returned by the catalog enumeration when no
explicit list is configured (the admin connection is opened exactly in
that case).  The result pairs the Rust `Result<Vec<String>>` with the
ordered trace of external effects. -/
def dump_databases (databases_to_backup : Option (List String))
    (server_catalog : List String)
    (schema_dump_ok data_dump_ok : String → Bool) :
    Except String (List String) × List DumpEvent :=
  match databases_to_backup with
  | some dbs =>
    if dbs.any invalid_db_name then
      (Except.error "Invalid character in database name list from config", [])
    else if dbs.isEmpty then
      (Except.error "No databases found or specified to back up.", [])
    else dump_loop schema_dump_ok data_dump_ok (some dbs) dbs
  | none =>
    if server_catalog.isEmpty then
      (Except.error "No databases found or specified to back up.",
       [DumpEvent.connectAdmin])
    else
      let r := dump_loop schema_dump_ok data_dump_ok none server_catalog
      (r.1, DumpEvent.connectAdmin :: r.2)

/-! ## Sequence repair
Embedding of `reset_all_sequences` and `reset_sequences_with_timeout`
(`src/utils/sequence_reset.rs`). -/

/-- One `(sequence, table, column)` triple returned by the catalog
enumeration. -/
structure SeqTriple where
  sequence_name : String
  table_name : String
  column_name : String
deriving DecidableEq, Repr

/-- Outcome of fetching `COALESCE(MAX(column), 0)` for one table: a
value (after the i64/i32 decoding attempts), an unsupported column
type, or a failed query. -/
inductive MaxFetch where
  | ok (v : Int)
  | unsupportedType
  | queryFailed (e : String)
deriving DecidableEq, Repr

/-- Per-triple body of the reset loop
(`src/utils/sequence_reset.rs:52-106`), threading the
`(reset_count, error_count)` pair; every per-item failure only bumps
`error_count`. -/
def process_sequence (fetch_max : String → String → MaxFetch)
    (setval_ok : String → Int → Bool) (counts : Nat × Nat) (t : SeqTriple) :
    Nat × Nat :=
  match fetch_max t.table_name t.column_name with
  | MaxFetch.ok max_val =>
    if setval_ok t.sequence_name (max_val + 1) then (counts.1 + 1, counts.2)
    else (counts.1, counts.2 + 1)
  | MaxFetch.unsupportedType => (counts.1, counts.2 + 1)
  | MaxFetch.queryFailed _ => (counts.1, counts.2 + 1)

/-- Embedding of `reset_all_sequences` (`src/utils/sequence_reset.rs:9-113`).
`enumeration` is the result of the initial catalog query; `fetch_max` and
`setval_ok` are the servers's answers for the per-item queries.  The Rust
function returns `Ok(())` and prints the counts; the model returns the
`(reset_count, error_count)` pair to keep them observable.  The helper
`reset_common_system_sequences` swallows every failure and always
returns `Ok`, so it contributes nothing to the result. -/
def reset_all_sequences (_db_name : String)
    (enumeration : Except String (List SeqTriple))
    (fetch_max : String → String → MaxFetch)
    (setval_ok : String → Int → Bool) : Except String (Nat × Nat) :=
  match enumeration with
  | Except.error e => Except.error ("Failed to fetch sequence information: " ++ e)
  | Except.ok sequences =>
    if sequences.isEmpty then Except.ok (0, 0)
    else Except.ok (sequences.foldl (process_sequence fetch_max setval_ok) (0, 0))

/-- Embedding of `reset_sequences_with_timeout`
(`src/utils/sequence_reset.rs:178-191`); `timed_out` records whether the
300-second tokio timeout fired first. -/
def reset_sequences_with_timeout (db_name : String) (timed_out : Bool)
    (enumeration : Except String (List SeqTriple))
    (fetch_max : String → String → MaxFetch)
    (setval_ok : String → Int → Bool) : Except String (Nat × Nat) :=
  if timed_out then
    Except.error ("Sequence reset operation timed out after 300 seconds for database: " ++ db_name)
  else reset_all_sequences db_name enumeration fetch_max setval_ok

/-! ## Theorems -/

/-- C1 counterexample: with `drop_target_database_if_exists = true`, a
maintenance database named `maintdb` in the target URI is dropped and
recreated rather than rejected with a protected-database error; and even
for the identifier `postgres` the error is produced only after the admin
connection and the catalog existence query have contacted the server. -/
theorem c1_counterexample :
    manage_target_database ⟨⟨"admin", "/maintdb"⟩, true, true⟩ "maintdb" true =
      (Except.ok true,
       [AdminAction.connectMaintenance, AdminAction.queryDatabaseExists "maintdb",
        AdminAction.terminateSessions "maintdb",
        AdminAction.dropDatabase "DROP DATABASE \"maintdb\" WITH (FORCE)",
        AdminAction.createDatabase "CREATE DATABASE \"maintdb\"  OWNER \"admin\" "])
    ∧ (manage_target_database ⟨⟨"admin", "/postgres"⟩, true, true⟩ "postgres" true).2 =
      [AdminAction.connectMaintenance, AdminAction.queryDatabaseExists "postgres"] :=
  ⟨rfl, rfl⟩

/-- C1 (amended): for every restore or sync run with
`drop_target_database_if_exists = true`, an attempt to drop an existing
target database whose name equals `postgres` (ASCII case-insensitively)
fails with the protected-database error, and no session termination, no
`DROP DATABASE` and no `CREATE DATABASE` is issued — the trace holds
exactly the admin connection and the existence query. -/
theorem c1_drop_postgres_protected (cfg : RestoreConfig) (name : String)
    (hdrop : cfg.drop_target_database_if_exists = true)
    (hpg : eqIgnoreAsciiCase name "postgres" = true) :
    manage_target_database cfg name true =
      (Except.error (protected_db_message name),
       [AdminAction.connectMaintenance, AdminAction.queryDatabaseExists name]) := by
  simp [manage_target_database, hdrop, hpg]

/-- Witness for `c1_drop_postgres_protected` at a concrete input. -/
theorem c1_drop_postgres_protected_witness :
    manage_target_database ⟨⟨"admin", "/postgres"⟩, true, true⟩ "Postgres" true =
      (Except.error (protected_db_message "Postgres"),
       [AdminAction.connectMaintenance, AdminAction.queryDatabaseExists "Postgres"]) :=
  c1_drop_postgres_protected _ _ rfl (by decide)

/-- C2: when the target database is absent and
`create_target_database_if_not_exists = false`, `manage_target_database`
returns the missing-database error having issued no `CREATE` and no
`DROP`; when it exists and `drop_target_database_if_exists = false`, it
returns success without terminating sessions, dropping or creating. -/
theorem c2_missing_and_reuse (cfg : RestoreConfig) (name : String) :
    (cfg.create_target_database_if_not_exists = false →
      manage_target_database cfg name false =
        (Except.error (db_missing_message name),
         [AdminAction.connectMaintenance, AdminAction.queryDatabaseExists name]))
    ∧ (cfg.drop_target_database_if_exists = false →
      manage_target_database cfg name true =
        (Except.ok false,
         [AdminAction.connectMaintenance, AdminAction.queryDatabaseExists name])) := by
  constructor <;> intro h <;> simp [manage_target_database, h]

/-- Witness for `c2_missing_and_reuse` at a concrete input. -/
theorem c2_missing_and_reuse_witness :
    manage_target_database ⟨⟨"u", "/postgres"⟩, false, false⟩ "appdb" false =
      (Except.error (db_missing_message "appdb"),
       [AdminAction.connectMaintenance, AdminAction.queryDatabaseExists "appdb"])
    ∧ manage_target_database ⟨⟨"u", "/postgres"⟩, false, false⟩ "appdb" true =
      (Except.ok false,
       [AdminAction.connectMaintenance, AdminAction.queryDatabaseExists "appdb"]) :=
  ⟨(c2_missing_and_reuse _ _).1 rfl, (c2_missing_and_reuse _ _).2 rfl⟩

/-- C8: whenever `manage_target_database` issues a `DROP DATABASE`, the
same run also issues the corresponding `CREATE DATABASE` — independent of
`create_target_database_if_not_exists`, so the drop path never ends with
the database absent. -/
theorem c8_drop_always_recreates (cfg : RestoreConfig) (name : String)
    (db_exists : Bool) (sql : String)
    (h : AdminAction.dropDatabase sql ∈ (manage_target_database cfg name db_exists).2) :
    AdminAction.createDatabase (create_database_sql name cfg.target_db_url.username)
      ∈ (manage_target_database cfg name db_exists).2 := by
  simp only [manage_target_database] at h ⊢
  split_ifs at h ⊢ <;> simp_all

/-- Witness for `c8_drop_always_recreates`: a run with
`create_target_database_if_not_exists = false` that drops still creates. -/
theorem c8_drop_always_recreates_witness :
    AdminAction.createDatabase (create_database_sql "appdb" "u")
      ∈ (manage_target_database ⟨⟨"u", "/postgres"⟩, true, false⟩ "appdb" true).2 :=
  c8_drop_always_recreates _ "appdb" true (drop_database_sql "appdb") (by decide)

/-- C4 counterexample: a non-zero `pg_restore` exit whose stderr contains
`errors ignored on restore` (here with count 2) is not reported as
success — the stderr allowlist requires exactly
`errors ignored on restore: 1`. -/
theorem c4_counterexample :
    containsSubstr "errors ignored on restore: 2" "errors ignored on restore" = true
    ∧ pg_restore_step false ⟨false, some 1, "", "errors ignored on restore: 2"⟩
        ≠ StepResult.ok := by
  constructor
  · decide
  · decide

/-- C4 (amended): a non-zero `pg_restore` exit is reported as success
when stderr contains the `transaction_timeout` warning or exactly
`errors ignored on restore: 1`, or stdout contains the
`transaction_timeout` warning or `errors ignored on restore`; the `psql`
path never reports success on a non-zero exit status. -/
theorem c4_benign_warning_tolerance :
    (∀ output : ProcOutput, output.statusSuccess = false →
      (containsSubstr output.stderr "unrecognized configuration parameter \"transaction_timeout\""
        || containsSubstr output.stderr "errors ignored on restore: 1"
        || containsSubstr output.stdout "unrecognized configuration parameter \"transaction_timeout\""
        || containsSubstr output.stdout "errors ignored on restore") = true →
      pg_restore_step false output = StepResult.ok)
    ∧ (∀ (timed_out : Bool) (output : ProcOutput), output.statusSuccess = false →
        psql_step timed_out output ≠ StepResult.ok) := by
  constructor
  · intro o hs hb
    simp [pg_restore_step, hs, hb]
  · intro t o hs
    cases t with
    | true => simp [psql_step]
    | false =>
      simp only [psql_step, hs]
      split_ifs <;> simp

/-- Witness for `c4_benign_warning_tolerance` at concrete outputs. -/
theorem c4_benign_warning_tolerance_witness :
    pg_restore_step false ⟨false, some 1, "", "errors ignored on restore: 1"⟩ = StepResult.ok
    ∧ psql_step false ⟨false, some 2, "out", "boom"⟩ ≠ StepResult.ok :=
  ⟨c4_benign_warning_tolerance.1 _ rfl (by decide),
   c4_benign_warning_tolerance.2 false _ rfl⟩

/-- C9: a non-zero `pg_restore` exit with empty captured stdout and
stderr is reported as success. -/
theorem c9_empty_output_success (output : ProcOutput)
    (hs : output.statusSuccess = false)
    (ho : output.stdout = "") (he : output.stderr = "") :
    pg_restore_step false output = StepResult.ok := by
  simp [pg_restore_step, hs, ho, he]

/-- Witness for `c9_empty_output_success` at a concrete output. -/
theorem c9_empty_output_success_witness :
    pg_restore_step false ⟨false, some 1, "", ""⟩ = StepResult.ok :=
  c9_empty_output_success _ rfl rfl rfl

/-- C6 counterexample: the schema-apply step runs under the fixed
4-hour (14400 s) `psql` timeout, not a 30-minute (1800 s) one. -/
theorem c6_counterexample :
    psql_timeout_secs "schema" = 14400 ∧ psql_timeout_secs "schema" ≠ 1800 := by
  decide

/-- C6 (amended): both the schema-apply and the data-apply `psql` steps
use the same fixed 14400-second timeout — the function takes no override
parameter — and a `psql` step whose timeout fires yields `timedOut`,
never success. -/
theorem c6_fixed_timeout :
    (∀ log_context : String, psql_timeout_secs log_context = 14400)
    ∧ (∀ output : ProcOutput, psql_step true output = StepResult.timedOut)
    ∧ (∀ output : ProcOutput, psql_step true output ≠ StepResult.ok) :=
  ⟨fun _ => rfl, fun _ => rfl, fun o => by simp [psql_step]⟩

/-- C3 counterexample: when the source and target names coincide
(identity mapping), the data file is executed verbatim — no
replica-mode wrapping and no truncation loop is added. -/
theorem c3_counterexample :
    executed_sql_content "INSERT INTO t VALUES (1);" "data" (some "appdb") (some "appdb")
      = "INSERT INTO t VALUES (1);"
    ∧ containsSubstr
        (executed_sql_content "INSERT INTO t VALUES (1);" "data" (some "appdb") (some "appdb"))
        "session_replication_role" = false := by
  constructor
  · rfl
  · decide

set_option maxRecDepth 10000 in
/-- C3 (amended): when a rename is requested (both names supplied and
different), the data SQL stream handed to `psql` is exactly the
replica-mode prologue with the truncation loop — which skips the table
`schema_migrations` — followed by the remapped body and the origin-mode
epilogue. -/
theorem c3_data_wrap_on_rename (content s t : String) (h : s ≠ t) :
    executed_sql_content content "data" (some s) (some t)
      = data_truncate_prologue ++ replace_database_references content s t
          ++ data_origin_epilogue
    ∧ containsSubstr data_truncate_prologue "AND tablename != 'schema_migrations'" = true := by
  refine ⟨?_, by decide⟩
  simp [executed_sql_content, h]

/-- Witness for `c3_data_wrap_on_rename` at a concrete input. -/
theorem c3_data_wrap_on_rename_witness :
    executed_sql_content "INSERT INTO t VALUES (1);" "data" (some "a") (some "b")
      = data_truncate_prologue
          ++ replace_database_references "INSERT INTO t VALUES (1);" "a" "b"
          ++ data_origin_epilogue
    ∧ containsSubstr data_truncate_prologue "AND tablename != 'schema_migrations'" = true :=
  c3_data_wrap_on_rename _ _ _ (by decide)

/-- Helper: a schema dump spawned inside the per-database loop is always
for an identifier that passed the validity check and the system-database
skip. -/
theorem dump_loop_spawn_valid (sOk dOk : String → Bool) (exp : Option (List String))
    (l : List String) (db : String)
    (h : DumpEvent.spawnSchemaDump db ∈ (dump_loop sOk dOk exp l).2) :
    invalid_db_name db = false ∧ skip_system_db db exp = false := by
  induction l with
  | nil => simp [dump_loop] at h
  | cons d rest ih =>
    simp only [dump_loop] at h
    cases hinv : invalid_db_name d with
    | true => rw [hinv] at h; simp at h; exact ih h
    | false =>
      rw [hinv] at h
      simp only [Bool.false_eq_true, if_false] at h
      cases hskip : skip_system_db d exp with
      | true => rw [hskip] at h; simp at h; exact ih h
      | false =>
        rw [hskip] at h
        simp only [Bool.false_eq_true, if_false] at h
        cases hso : sOk d with
        | false =>
          rw [hso] at h
          simp at h
          subst h
          exact ⟨hinv, hskip⟩
        | true =>
          rw [hso] at h
          simp only [if_true] at h
          cases hdo : dOk d with
          | false =>
            rw [hdo] at h
            simp at h
            subst h
            exact ⟨hinv, hskip⟩
          | true =>
            rw [hdo] at h
            simp at h
            rcases h with h | h
            · subst h; exact ⟨hinv, hskip⟩
            · exact ih h

/-- Helper: a schema dump spawned by `dump_databases` is always for an
identifier that passed the validity check and the system-database skip. -/
theorem dump_databases_spawn_valid (cfg_dbs : Option (List String))
    (server_catalog : List String) (sOk dOk : String → Bool) (db : String)
    (h : DumpEvent.spawnSchemaDump db
          ∈ (dump_databases cfg_dbs server_catalog sOk dOk).2) :
    invalid_db_name db = false ∧ skip_system_db db cfg_dbs = false := by
  cases cfg_dbs with
  | some dbs =>
    simp only [dump_databases] at h
    by_cases h1 : dbs.any invalid_db_name = true
    · simp [h1] at h
    · by_cases h2 : dbs.isEmpty = true
      · simp [h1, h2] at h
      · simp only [h1, h2, Bool.false_eq_true, if_false,
          eq_false_of_ne_true h1, eq_false_of_ne_true h2] at h
        exact dump_loop_spawn_valid _ _ _ _ _ h
  | none =>
    simp only [dump_databases] at h
    by_cases h2 : server_catalog.isEmpty = true
    · simp [h2] at h
    · simp only [h2, eq_false_of_ne_true h2, Bool.false_eq_true, if_false,
        List.mem_cons] at h
      rcases h with h | h
      · exact absurd h (by simp)
      · exact dump_loop_spawn_valid _ _ _ _ _ h

/-- C5 counterexample: the identifier `café` contains `é`, a character
outside `[A-Za-z0-9_-]`, yet it passes the validity check (Rust
`char::is_alphanumeric` is Unicode-wide) and `pg_dump` is spawned
for it. -/
theorem c5_counterexample :
    invalid_db_name "café" = false
    ∧ dump_databases (some ["café"]) [] (fun _ => true) (fun _ => true)
      = (Except.ok ["café"],
         [DumpEvent.spawnSchemaDump "café", DumpEvent.spawnDataDump "café"]) := by
  constructor
  · decide
  · rfl

/-- C5 (amended): an identifier that is all-whitespace or contains a
character that is neither Unicode-alphanumeric (Rust
`char::is_alphanumeric`) nor `_` nor `-` never reaches `pg_dump`: an
explicit list containing such an identifier makes the run fail before
any spawn, and no schema dump is ever spawned for such an identifier. -/
theorem c5_invalid_identifier_never_dumped :
    (∀ (dbs server_catalog : List String) (sOk dOk : String → Bool),
      dbs.any invalid_db_name = true →
      dump_databases (some dbs) server_catalog sOk dOk
        = (Except.error "Invalid character in database name list from config", []))
    ∧ (∀ (cfg_dbs : Option (List String)) (server_catalog : List String)
        (sOk dOk : String → Bool) (db : String),
        DumpEvent.spawnSchemaDump db
          ∈ (dump_databases cfg_dbs server_catalog sOk dOk).2 →
        invalid_db_name db = false) := by
  constructor
  · intro dbs cat sOk dOk h
    simp [dump_databases, h]
  · intro cfg cat sOk dOk db h
    exact (dump_databases_spawn_valid _ _ _ _ _ h).1

/-- Witness for `c5_invalid_identifier_never_dumped` at concrete inputs. -/
theorem c5_invalid_identifier_never_dumped_witness :
    dump_databases (some ["bad name!"]) [] (fun _ => true) (fun _ => true)
      = (Except.error "Invalid character in database name list from config", [])
    ∧ invalid_db_name "appdb" = false :=
  ⟨c5_invalid_identifier_never_dumped.1 ["bad name!"] [] (fun _ => true) (fun _ => true)
      (by decide),
   c5_invalid_identifier_never_dumped.2 (some ["appdb"]) [] (fun _ => true) (fun _ => true)
      "appdb" (by decide)⟩

/-- C7: every spawned dump is for an identifier that does not start with
`template`, and is for `postgres` only when an explicit database list is
configured; conversely, `postgres` in an explicit list is dumped. -/
theorem c7_template_and_postgres_skipped :
    (∀ (cfg_dbs : Option (List String)) (server_catalog : List String)
        (sOk dOk : String → Bool) (db : String),
      DumpEvent.spawnSchemaDump db
        ∈ (dump_databases cfg_dbs server_catalog sOk dOk).2 →
      strStartsWith db.data "template".data = false
      ∧ (db = "postgres" → cfg_dbs ≠ none))
    ∧ (∀ sOk dOk : String → Bool,
        DumpEvent.spawnSchemaDump "postgres"
          ∈ (dump_databases (some ["postgres"]) [] sOk dOk).2) := by
  constructor
  · intro cfg cat sOk dOk db h
    have hskip := (dump_databases_spawn_valid _ _ _ _ _ h).2
    unfold skip_system_db at hskip
    rw [Bool.or_eq_false_iff] at hskip
    refine ⟨hskip.1, ?_⟩
    intro hdb hcfg
    subst hdb; subst hcfg
    simp at hskip
  · intro sOk dOk
    simp only [dump_databases,
      show (["postgres"] : List String).any invalid_db_name = false from by decide,
      Bool.false_eq_true, if_false, List.isEmpty_cons]
    simp only [dump_loop,
      show invalid_db_name "postgres" = false from by decide,
      show skip_system_db "postgres" (some ["postgres"]) = false from by decide,
      Bool.false_eq_true, if_false]
    cases hs : sOk "postgres" with
    | false => simp [hs]
    | true =>
      cases hd : dOk "postgres" with
      | false => simp [hs, hd]
      | true => simp [hs, hd]

/-- Witness for `c7_template_and_postgres_skipped` at concrete inputs. -/
theorem c7_template_and_postgres_skipped_witness :
    (strStartsWith "appdb".data "template".data = false
      ∧ ("appdb" = "postgres" → (some ["appdb"] : Option (List String)) ≠ none))
    ∧ DumpEvent.spawnSchemaDump "postgres"
        ∈ (dump_databases (some ["postgres"]) [] (fun _ => true) (fun _ => true)).2 :=
  ⟨c7_template_and_postgres_skipped.1 (some ["appdb"]) [] (fun _ => true) (fun _ => true)
      "appdb" (by decide),
   c7_template_and_postgres_skipped.2 (fun _ => true) (fun _ => true)⟩

/-- C10 counterexample: when the initial catalog enumeration fails, the
error carries only the fetch-failure context and does not name the
database (`mydb`). -/
theorem c10_counterexample :
    reset_sequences_with_timeout "mydb" false (Except.error "connection refused")
        (fun _ _ => MaxFetch.unsupportedType) (fun _ _ => false)
      = Except.error "Failed to fetch sequence information: connection refused"
    ∧ containsSubstr "Failed to fetch sequence information: connection refused" "mydb"
        = false :=
  ⟨rfl, by decide⟩

/-- C10 (amended): per-item failures (reading a maximum or a `setval`)
never make sequence repair fail — with a successful enumeration and no
timeout the result is success for every behaviour of the per-item
queries; the pass fails only on enumeration failure, whose error carries
the fetch context but not the database name, or on the 300-second
timeout, whose error names the database. -/
theorem c10_sequence_repair_failure_modes :
    (∀ (db_name : String) (sequences : List SeqTriple)
        (fetch_max : String → String → MaxFetch) (setval_ok : String → Int → Bool),
      ∃ counts, reset_sequences_with_timeout db_name false (Except.ok sequences)
          fetch_max setval_ok = Except.ok counts)
    ∧ (∀ (db_name e : String) (fetch_max : String → String → MaxFetch)
        (setval_ok : String → Int → Bool),
      reset_sequences_with_timeout db_name false (Except.error e) fetch_max setval_ok
        = Except.error ("Failed to fetch sequence information: " ++ e))
    ∧ (∀ (db_name : String) (enumeration : Except String (List SeqTriple))
        (fetch_max : String → String → MaxFetch) (setval_ok : String → Int → Bool),
      reset_sequences_with_timeout db_name true enumeration fetch_max setval_ok
        = Except.error
            ("Sequence reset operation timed out after 300 seconds for database: "
              ++ db_name)) := by
  refine ⟨?_, fun _ _ _ _ => rfl, fun _ _ _ _ => rfl⟩
  intro db seqs fm sv
  by_cases h : seqs.isEmpty = true
  · exact ⟨(0, 0), by simp [reset_sequences_with_timeout, reset_all_sequences, h]⟩
  · exact ⟨seqs.foldl (process_sequence fm sv) (0, 0),
      by simp [reset_sequences_with_timeout, reset_all_sequences, h]⟩

end DatabaseTool
